import Mathlib

/-!
Shallow embedding of the Team9 channel plugin (openclaw repository):
per-peer agent/session routing, token/config resolution, group mention
resolution, the inbound debounce/merge stage, the connection watchdog, and
the connection-supervisor registry, together with theorems settling the
specification claims about them.

All machine strings are modelled as Lean `String`; JavaScript string
operations (trim, toLowerCase, regex replacement) are embedded as
structurally recursive functions over `String.data` so that they compute
inside the kernel.  JS `toLowerCase` is embedded with the ASCII
`Char.toLower`; every string the claims evaluate is ASCII, where the two
agree.
-/

namespace Team9

/-- JS `String.prototype.trim`, restricted to the whitespace characters of
`Char.isWhitespace` (space, tab, CR, LF) — these agree with JS on ASCII. -/
def jsTrim (s : String) : String :=
  ⟨(s.data.dropWhile Char.isWhitespace).reverse.dropWhile Char.isWhitespace |>.reverse⟩

/-- Drop characters up to and including the first `>`; `none` when no `>`
occurs (so the regex `<[^>]*>` has no match starting at the `<`). -/
def afterGt : List Char → Option (List Char)
  | [] => none
  | c :: rest => if c = '>' then some rest else afterGt rest

/-- Fuel-driven worker for `stripTags`; the fuel is always at least the
length of the list, so the fuel-exhausted branch is never reached. -/
def stripTagsAux : Nat → List Char → List Char
  | 0, l => l
  | _ + 1, [] => []
  | fuel + 1, c :: rest =>
    if c = '<' then
      match afterGt rest with
      | some after => stripTagsAux fuel after
      | none => c :: rest
    else c :: stripTagsAux fuel rest

/-- JS `content.replace(/<[^>]*>/g, "")`: remove every maximal `<...>`
span; a `<` with no later `>` is left in place (the regex does not match). -/
def stripTags (l : List Char) : List Char := stripTagsAux l.length l

/-- Fuel-driven worker for `jsReplaceAll`: leftmost, non-overlapping
replacement of `pat` by `rep`. -/
def replaceAllAux (pat rep : List Char) : Nat → List Char → List Char
  | _, [] => []
  | 0, l => l
  | fuel + 1, c :: rest =>
    if pat.isPrefixOf (c :: rest) then
      rep ++ replaceAllAux pat rep fuel ((c :: rest).drop pat.length)
    else c :: replaceAllAux pat rep fuel rest

/-- JS `String.prototype.replace` with a global literal pattern. -/
def jsReplaceAll (s pat rep : String) : String :=
  ⟨replaceAllAux pat.data rep.data s.data.length s.data⟩

/-- `stripHtml` from `monitor/prepare.ts` (also inlined in the older
`channel.ts`): strip HTML tags, decode the five HTML entities in source
order, and trim. -/
def stripHtml (html : String) : String :=
  jsTrim (jsReplaceAll (jsReplaceAll (jsReplaceAll (jsReplaceAll (jsReplaceAll
    ⟨stripTags html.data⟩ "&lt;" "<") "&gt;" ">") "&amp;" "&") "&quot;" "\"") "&#39;" "'")

/-- Characters kept by the sanitizer: the regex class `[a-zA-Z0-9-_]`. -/
def isSafeIdChar (c : Char) : Bool :=
  ('a' ≤ c && c ≤ 'z') || ('A' ≤ c && c ≤ 'Z') || ('0' ≤ c && c ≤ '9') ||
    c = '-' || c = '_'

/-- `identifier.replace(/[^a-zA-Z0-9-_]/g, "-").toLowerCase()` from
`generateTeam9AgentId`. -/
def sanitizeId (s : String) : String :=
  ⟨(s.data.map fun c => if isSafeIdChar c then c else '-').map Char.toLower⟩

/-- Parameter record of `generateTeam9AgentId` (channel.ts). -/
structure AgentIdParams where
  senderId : String
  channelId : String
  isGroup : Bool
  accountId : Option String := none

/-- `generateTeam9AgentId` (channel.ts): group chats key the agent id by
channel, DMs by sender; a truthy accountId other than "default" is folded
into the identifier for multi-bot deployments. -/
def generateTeam9AgentId (p : AgentIdParams) : String :=
  let identifier := if p.isGroup then p.channelId else p.senderId
  let sanitized := sanitizeId identifier
  let chatType := if p.isGroup then "group" else "user"
  match p.accountId with
  | some a =>
    if a ≠ "" ∧ a ≠ "default" then
      "team9-" ++ sanitizeId a ++ "-" ++ chatType ++ "-" ++ sanitized
    else
      "team9-" ++ chatType ++ "-" ++ sanitized
  | none => "team9-" ++ chatType ++ "-" ++ sanitized

/-- `buildTeam9SessionKey` (channel.ts):
`agent:{agentId}:team9:{peerKind}:{channelId}` fully lower-cased. -/
def buildTeam9SessionKey (agentId channelId : String) (isGroup : Bool) : String :=
  let peerKind := if isGroup then "group" else "dm"
  ⟨("agent:" ++ agentId ++ ":team9:" ++ peerKind ++ ":" ++ channelId).data.map Char.toLower⟩

/-- Credentials object in the Team9 config (`credentials.token`). -/
structure Team9Credentials where
  token : Option String := none
  deriving DecidableEq, Repr

/-- Per-channel group settings; `requireMention := none` models the field
being absent or not a boolean. -/
structure Team9GroupConfig where
  requireMention : Option Bool := none
  deriving DecidableEq, Repr

/-- Named-account section of the Team9 config (the fields the claims
touch). -/
structure Team9AccountConfig where
  credentials : Option Team9Credentials := none
  groups : Option (List (String × Team9GroupConfig)) := none
  deriving DecidableEq, Repr

/-- Root Team9 config section (the fields the claims touch).  JS objects
keyed by strings are modelled as association lists looked up by first
match. -/
structure Team9Config where
  credentials : Option Team9Credentials := none
  accounts : List (String × Team9AccountConfig) := []
  groups : Option (List (String × Team9GroupConfig)) := none
  deriving DecidableEq, Repr

/-- Host config: `cfg.channels.team9`. -/
structure OpenClawConfig where
  team9 : Option Team9Config := none
  deriving DecidableEq, Repr

/-- JS object property read `obj?.[key]` over an association list. -/
def lookupKey {α : Type} (l : List (String × α)) (k : String) : Option α :=
  (l.find? fun e => e.1 == k).map (·.2)

/-- The JS nullish-coalescing operator `x ?? y`. -/
def jsNullish {α : Type} (x y : Option α) : Option α :=
  match x with
  | some v => some v
  | none => y

/-- `normalizeTeam9Token` (config.ts): falsy input or whitespace-only input
yields undefined, otherwise the trimmed token (the bot-prefix check only
logs a warning and is not modelled). -/
def normalizeTeam9Token (raw : Option String) : Option String :=
  match raw with
  | none => none
  | some r =>
    if r = "" then none
    else
      let trimmed := jsTrim r
      if trimmed = "" then none else some trimmed

/-- Token provenance tag (`Team9TokenSource`). -/
inductive Team9TokenSource where
  | config
  | env
  | noSource
  deriving DecidableEq, Repr

/-- Result record of `resolveTeam9Token`. -/
structure Team9TokenResolution where
  token : String
  source : Team9TokenSource
  deriving DecidableEq, Repr

/-- `resolveTeam9Token` (config.ts): account-specific config token, then —
for the default account only — the root config token, then — for the
default account only — the TEAM9_TOKEN environment variable (passed here
explicitly as `envToken`). -/
def resolveTeam9Token (cfg : Option OpenClawConfig) (envToken : Option String)
    (accountId : Option String) : Team9TokenResolution :=
  let team9Config := cfg.bind (·.team9)
  let resolvedAccountId := accountId.getD "default"
  let isDefault := resolvedAccountId = "default"
  match normalizeTeam9Token
      ((team9Config.bind fun t => lookupKey t.accounts resolvedAccountId).bind
        fun a => a.credentials.bind (·.token)) with
  | some tok => ⟨tok, .config⟩
  | none =>
    if isDefault then
      match normalizeTeam9Token (team9Config.bind fun t => t.credentials.bind (·.token)) with
      | some tok => ⟨tok, .config⟩
      | none =>
        match normalizeTeam9Token envToken with
        | some tok => ⟨tok, .env⟩
        | none => ⟨"", .noSource⟩
    else ⟨"", .noSource⟩

/-- Token-relevant slice of `ResolvedTeam9Account`. -/
structure ResolvedTeam9Account where
  accountId : String
  token : Option String
  tokenSource : Team9TokenSource
  deriving DecidableEq, Repr

/-- Token resolution part of `resolveTeam9Account` (config.ts):
`token := tokenResolution.token || undefined` plus the source tag; the
account id is passed explicitly as the caller resolves it. -/
def resolveTeam9Account (cfg : OpenClawConfig) (envToken : Option String)
    (accountId : String) : ResolvedTeam9Account :=
  let tokenResolution := resolveTeam9Token (some cfg) envToken (some accountId)
  { accountId := accountId
    token := if tokenResolution.token = "" then none else some tokenResolution.token
    tokenSource := tokenResolution.source }

theorem string_append_left_cancel {p a b : String} (h : p ++ a = p ++ b) : a = b := by
  cases p with
  | mk pd =>
    cases a with
    | mk ad =>
      cases b with
      | mk bd =>
        have hd : pd ++ ad = pd ++ bd := by
          have := congrArg String.data h
          simpa [String.data] using this
        exact congrArg String.mk (List.append_cancel_left hd)

example : sanitizeId "A.b" = "a-b" := by decide
example : generateTeam9AgentId ⟨"u1", "c1", false, none⟩ = "team9-user-u1" := by decide
example : generateTeam9AgentId ⟨"u1", "c1", true, some "bot2"⟩ = "team9-bot2-group-c1" := by decide
example : buildTeam9SessionKey "team9-user-u1" "C1" false = "agent:team9-user-u1:team9:dm:c1" := by decide

/-- C1 counterexample: the sanitizer lower-cases identifiers, so the two
distinct DM senderIds "A" and "a" derive the same agent id; the claim that
distinct senderIds always yield distinct agent ids in DM context is false. -/
theorem c1_counterexample :
    ("A" : String) ≠ "a" ∧
    generateTeam9AgentId ⟨"A", "c", false, none⟩ =
      generateTeam9AgentId ⟨"a", "c", false, none⟩ := by
  constructor
  · decide
  · decide

/-- C1 (amended): route derivation is pure and isolating up to identifier
sanitization — agent id and session key derivation are deterministic on
equal inputs; two DM senders (isGroup = false) whose sanitized senderIds
differ derive different agent ids under any common accountId; and in group
context (isGroup = true) the agent id for a fixed channelId is independent
of the senderId. -/
theorem c1_route_isolation (acct : Option String) (ch ch1 ch2 s1 s2 : String)
    (hs : sanitizeId s1 ≠ sanitizeId s2) :
    (generateTeam9AgentId ⟨s1, ch1, false, acct⟩ =
        generateTeam9AgentId ⟨s1, ch1, false, acct⟩ ∧
      buildTeam9SessionKey (generateTeam9AgentId ⟨s1, ch1, false, acct⟩) ch1 false =
        buildTeam9SessionKey (generateTeam9AgentId ⟨s1, ch1, false, acct⟩) ch1 false) ∧
    generateTeam9AgentId ⟨s1, ch1, false, acct⟩ ≠
      generateTeam9AgentId ⟨s2, ch2, false, acct⟩ ∧
    generateTeam9AgentId ⟨s1, ch, true, acct⟩ =
      generateTeam9AgentId ⟨s2, ch, true, acct⟩ := by
  refine ⟨⟨rfl, rfl⟩, ?_, ?_⟩
  · intro h
    simp only [generateTeam9AgentId] at h
    cases acct with
    | none => exact hs (string_append_left_cancel h)
    | some a =>
      by_cases hcond : a ≠ "" ∧ a ≠ "default"
      · simp only [if_pos hcond] at h
        exact hs (string_append_left_cancel h)
      · simp only [if_neg hcond] at h
        exact hs (string_append_left_cancel h)
  · cases acct <;> rfl

/-- C1 witness: the amended isolation theorem applied at senderIds "alice"
and "bob" sharing channel "g1" (group) and DM channels "c1", "c2". -/
theorem c1_route_isolation_witness :
    sanitizeId "alice" ≠ sanitizeId "bob" ∧
    generateTeam9AgentId ⟨"alice", "c1", false, none⟩ ≠
      generateTeam9AgentId ⟨"bob", "c2", false, none⟩ ∧
    generateTeam9AgentId ⟨"alice", "g1", true, none⟩ =
      generateTeam9AgentId ⟨"bob", "g1", true, none⟩ :=
  ⟨by decide,
    (c1_route_isolation none "g1" "c1" "c2" "alice" "bob" (by decide)).2.1,
    (c1_route_isolation none "g1" "c1" "c2" "alice" "bob" (by decide)).2.2⟩

theorem normalizeTeam9Token_ne_empty {x : Option String} {t : String}
    (h : normalizeTeam9Token x = some t) : t ≠ "" := by
  cases x with
  | none => simp [normalizeTeam9Token] at h
  | some r =>
    simp only [normalizeTeam9Token] at h
    by_cases hr : r = ""
    · simp [hr] at h
    · simp only [if_neg hr] at h
      by_cases ht : jsTrim r = ""
      · simp [ht] at h
      · simp only [if_neg ht, Option.some.injEq] at h
        exact h ▸ ht

/-- Config used in the C2 counterexample: a root-level config token for the
default account. -/
def c2CfgEx : OpenClawConfig :=
  { team9 := some { credentials := some { token := some "t9bot_cfg" } } }

/-- C2 counterexample: with TEAM9_TOKEN set (non-empty after trimming) and
a root config token present, the default account's resolved token is the
config token, not the environment token — the environment variable does not
take priority over the config file. -/
theorem c2_counterexample :
    normalizeTeam9Token (some "t9bot_env") = some "t9bot_env" ∧
    resolveTeam9Account c2CfgEx (some "t9bot_env") "default" =
      { accountId := "default", token := some "t9bot_cfg", tokenSource := .config } := by
  constructor
  · decide
  · decide

/-- C2 (amended): the TEAM9_TOKEN environment variable is a fallback for
the default account only — it is used exactly when neither an account-level
nor a root-level config token is present; for every non-default account the
resolution result is independent of the environment variable. -/
theorem c2_token_resolution (cfg : OpenClawConfig) (envToken : Option String)
    (a t : String) (ha : a ≠ "default")
    (hacct : normalizeTeam9Token
      ((cfg.team9.bind fun c => lookupKey c.accounts "default").bind
        fun ac => ac.credentials.bind (·.token)) = none)
    (hroot : normalizeTeam9Token (cfg.team9.bind fun c => c.credentials.bind (·.token)) = none)
    (henv : normalizeTeam9Token envToken = some t) :
    resolveTeam9Account cfg envToken a = resolveTeam9Account cfg none a ∧
    resolveTeam9Account cfg envToken "default" =
      { accountId := "default", token := some t, tokenSource := .env } := by
  constructor
  · simp only [resolveTeam9Account, resolveTeam9Token]
    cases hcase : normalizeTeam9Token
        ((cfg.team9.bind fun c => lookupKey c.accounts a).bind
          fun ac => ac.credentials.bind (·.token)) with
    | some tok => simp [hcase]
    | none => simp [hcase, ha]
  · have ht : t ≠ "" := normalizeTeam9Token_ne_empty henv
    simp only [resolveTeam9Account, resolveTeam9Token]
    simp [hacct, hroot, henv, ht]

/-- C2 witness: the amended resolution theorem applied at an empty config,
account "bot2" and environment token "t9bot_env". -/
theorem c2_token_resolution_witness :
    resolveTeam9Account { team9 := none } (some "t9bot_env") "bot2" =
      resolveTeam9Account { team9 := none } none "bot2" ∧
    resolveTeam9Account { team9 := none } (some "t9bot_env") "default" =
      { accountId := "default", token := some "t9bot_env", tokenSource := .env } :=
  c2_token_resolution { team9 := none } (some "t9bot_env") "bot2" "t9bot_env"
    (by decide) (by decide) (by decide) (by decide)

/-- `resolveTeam9GroupRequireMention` (group-mentions.ts): pick the
account's groups object when the trimmed accountId is truthy and the
account has one, otherwise the root groups object; within the picked
object: the channel entry's boolean, else the "*" entry's boolean, else
true. -/
def resolveTeam9GroupRequireMention (cfg : OpenClawConfig)
    (accountIdParam groupIdParam : Option String) : Bool :=
  match cfg.team9 with
  | none => true
  | some team9Config =>
    let accountId := accountIdParam.map jsTrim
    let channelId := (groupIdParam.map jsTrim).getD ""
    let accountGroups : Option (List (String × Team9GroupConfig)) :=
      match accountId with
      | some a =>
        if a ≠ "" then (lookupKey team9Config.accounts a).bind (·.groups) else none
      | none => none
    match jsNullish accountGroups team9Config.groups with
    | none => true
    | some groups =>
      let perChannel : Option Bool :=
        if channelId ≠ "" then
          match lookupKey groups channelId with
          | some entry => entry.requireMention
          | none => none
        else none
      match perChannel with
      | some b => b
      | none =>
        match (lookupKey groups "*").bind (·.requireMention) with
        | some b => b
        | none => true

/-- The spec-claimed amended lookup within one groups object: channel
entry's boolean, else the wildcard's boolean, else true. -/
def groupsChainLookup (groups : List (String × Team9GroupConfig))
    (channelId : String) : Bool :=
  let perChannel : Option Bool :=
    if channelId ≠ "" then
      match lookupKey groups channelId with
      | some entry => entry.requireMention
      | none => none
    else none
  match perChannel with
  | some b => b
  | none =>
    match (lookupKey groups "*").bind (·.requireMention) with
    | some b => b
    | none => true

/-- Config used in the C6 counterexample: account "a" has an (empty) groups
object while the root groups set channel "c" to requireMention = false. -/
def c6CfgEx : OpenClawConfig :=
  { team9 := some
      { accounts := [("a", { groups := some [] })]
        groups := some [("c", { requireMention := some false })] } }

/-- C6 counterexample: the root-level per-channel setting (false for
channel "c") is never consulted once the account has any groups object —
the resolver returns the default true instead of the root-level false, so
the claimed per-account → root-level → wildcard chain does not hold. -/
theorem c6_counterexample :
    ((c6CfgEx.team9.bind (·.groups)).bind fun g =>
        (lookupKey g "c").bind (·.requireMention)) = some false ∧
    resolveTeam9GroupRequireMention c6CfgEx (some "a") (some "c") = true := by
  constructor
  · decide
  · decide

/-- C6 (amended): the account's groups object, when the trimmed accountId
is non-empty and the account has one, fully shadows the root-level groups
object; within the selected object the lookup is per-channel boolean, then
wildcard "*" boolean, then default true; with no selectable groups object
the result is true. -/
theorem c6_require_mention_resolution (cfg : OpenClawConfig)
    (t9 : Team9Config) (a ch : String) (ag rg : List (String × Team9GroupConfig))
    (hcfg : cfg.team9 = some t9) :
    (a ≠ "" → jsTrim a = a → jsTrim ch = ch →
      (lookupKey t9.accounts a).bind (·.groups) = some ag →
      resolveTeam9GroupRequireMention cfg (some a) (some ch) = groupsChainLookup ag ch) ∧
    ((lookupKey t9.accounts a).bind (·.groups) = none → t9.groups = some rg →
      jsTrim a = a → jsTrim ch = ch →
      resolveTeam9GroupRequireMention cfg (some a) (some ch) = groupsChainLookup rg ch) ∧
    ((lookupKey t9.accounts a).bind (·.groups) = none → t9.groups = none →
      jsTrim a = a → jsTrim ch = ch →
      resolveTeam9GroupRequireMention cfg (some a) (some ch) = true) := by
  refine ⟨?_, ?_, ?_⟩
  · intro hne htra htrch hag
    simp only [resolveTeam9GroupRequireMention, hcfg, Option.map_some', Option.getD_some,
      htra, htrch, if_pos hne, hag, jsNullish, groupsChainLookup]
  · intro hag hrg htra htrch
    simp only [resolveTeam9GroupRequireMention, hcfg, Option.map_some', Option.getD_some,
      htra, htrch, hag, hrg, jsNullish, groupsChainLookup]
    by_cases hne : a ≠ "" <;> simp only [hne, ite_true, ite_false, if_pos, if_neg,
      ite_not, hag, reduceIte]
  · intro hag hrg htra htrch
    simp only [resolveTeam9GroupRequireMention, hcfg, Option.map_some', Option.getD_some,
      htra, htrch, hag, hrg, jsNullish]
    by_cases hne : a ≠ "" <;> simp [hne, hag]

/-- C6 witness: the amended resolution theorem applied at the
counterexample config, account "a" and channel "c" (the account's empty
groups object shadows the root object, giving the default true). -/
theorem c6_require_mention_resolution_witness :
    resolveTeam9GroupRequireMention c6CfgEx (some "a") (some "c") =
      groupsChainLookup [] "c" :=
  (c6_require_mention_resolution c6CfgEx
      { accounts := [("a", { groups := some [] })]
        groups := some [("c", { requireMention := some false })] }
      "a" "c" [] [] rfl).1 (by decide) (by decide) (by decide) (by decide)

/-- `Team9IncomingMessage` (types.ts), with attachments abstracted to their
identifiers and the timestamp omitted (no claim touches it). -/
structure Team9IncomingMessage where
  messageId : String
  channelId : String
  senderId : String
  senderName : Option String := none
  content : String
  parentId : Option String := none
  attachments : Option (List String) := none
  isGroup : Bool := false
  deriving DecidableEq, Repr

instance : Inhabited Team9IncomingMessage :=
  ⟨{ messageId := "", channelId := "", senderId := "", content := "" }⟩

/-- `buildKey` of the debouncer (monitor/message-handler.ts): null for a
missing senderId, otherwise `team9:{accountId}:{channelId}:{senderId}`. -/
def buildTeam9DebounceKey (accountId : String) (m : Team9IncomingMessage) : Option String :=
  if m.senderId = "" then none
  else some ("team9:" ++ accountId ++ ":" ++ m.channelId ++ ":" ++ m.senderId)

/-- `shouldDebounce` (monitor/message-handler.ts), parametric in the
runtime's control-command recognizer `hasCmd`
(`runtime.channel.text.hasControlCommand` lives outside this repository
snapshot): attachment-bearing messages, blank messages and control commands
are never debounced. -/
def shouldDebounce (hasCmd : String → Bool) (m : Team9IncomingMessage) : Bool :=
  if (m.attachments.getD []).length > 0 then false
  else
    let plain := stripHtml m.content
    if jsTrim plain = "" then false
    else !hasCmd plain

/-- Modelled from the spec: the generic inbound debouncer state.
`createInboundDebouncer` is provided by the OpenClaw plugin runtime and is
not part of this repository snapshot; per spec §4.2 it keeps one ordered
pending batch per key. -/
structure DebouncerState (E : Type) where
  pending : List (String × List E) := []

/-- Append an entry to the batch stored under a key, creating the batch
when absent (JS `Map` update). -/
def appendPending {E : Type} (k : String) (e : E) :
    List (String × List E) → List (String × List E)
  | [] => [(k, [e])]
  | (k', b) :: rest =>
    if k' = k then (k', b ++ [e]) :: rest else (k', b) :: appendPending k e rest

/-- Modelled from the spec: `enqueue` of the runtime debouncer.  Spec §4.2:
a message whose `shouldDebounce` is false (or with no key) bypasses the
quiet-window timer and is delivered to `onFlush` immediately as its own
single-element batch, leaving pending batches untouched; otherwise the
entry is appended to its key's pending batch and the timer restarts.
Returns the new state and the batches flushed by this call. -/
def debounceEnqueue {E : Type} (key? : Option String) (deb : Bool) (e : E)
    (st : DebouncerState E) : DebouncerState E × List (List E) :=
  match key? with
  | none => (st, [[e]])
  | some k =>
    if deb then ({ pending := appendPending k e st.pending }, [])
    else (st, [[e]])

/-- Modelled from the spec: quiet-window expiry for one key — the
accumulated batch is flushed once and the key's state cleared. -/
def debounceExpire {E : Type} (k : String) (st : DebouncerState E) :
    DebouncerState E × List (List E) :=
  match lookupKey st.pending k with
  | none => (st, [])
  | some batch =>
    ({ pending := st.pending.filter fun kv => kv.1 ≠ k }, [batch])

/-- The Team9 debouncer `enqueue` instantiated with the key and bypass
predicate of monitor/message-handler.ts. -/
def team9Enqueue (hasCmd : String → Bool) (accountId : String)
    (m : Team9IncomingMessage) (st : DebouncerState Team9IncomingMessage) :
    DebouncerState Team9IncomingMessage × List (List Team9IncomingMessage) :=
  debounceEnqueue (buildTeam9DebounceKey accountId m) (shouldDebounce hasCmd m) m st

/-- C4: a message carrying attachments, or whose HTML-stripped content is a
recognized control command, is never debounced — `shouldDebounce` is false
for it, and enqueuing it flushes it immediately as its own single-element
batch while every pending batch (in particular any batch for the same key)
is left untouched. -/
theorem c4_bypass (hasCmd : String → Bool) (accountId : String)
    (m : Team9IncomingMessage) (st : DebouncerState Team9IncomingMessage)
    (h : (m.attachments.getD []).length > 0 ∨ hasCmd (stripHtml m.content) = true) :
    shouldDebounce hasCmd m = false ∧
    team9Enqueue hasCmd accountId m st = (st, [[m]]) := by
  have hsd : shouldDebounce hasCmd m = false := by
    rcases h with h | h
    · simp [shouldDebounce, h]
    · by_cases ha : (m.attachments.getD []).length > 0
      · simp [shouldDebounce, ha]
      · by_cases hb : jsTrim (stripHtml m.content) = "" <;>
          simp [shouldDebounce, ha, hb, h]
  refine ⟨hsd, ?_⟩
  rw [team9Enqueue, hsd]
  cases hk : buildTeam9DebounceKey accountId m <;> simp [debounceEnqueue]

/-- Concrete attachment-bearing message used in the C4 witness. -/
def c4MsgEx : Team9IncomingMessage :=
  { messageId := "m2", channelId := "c1", senderId := "u1",
    content := "see file", attachments := some ["file-1"] }

/-- Concrete debouncer state used in the C4 witness: the same key already
holds a pending batch. -/
def c4StEx : DebouncerState Team9IncomingMessage :=
  { pending := [("team9:default:c1:u1",
      [{ messageId := "m1", channelId := "c1", senderId := "u1", content := "hello" }])] }

/-- C4 witness: the bypass theorem applied to an attachment-bearing message
whose key already has a pending batch; it flushes alone and the pending
batch is unchanged. -/
theorem c4_bypass_witness :
    shouldDebounce (fun _ => false) c4MsgEx = false ∧
    team9Enqueue (fun _ => false) "default" c4MsgEx c4StEx = (c4StEx, [[c4MsgEx]]) :=
  c4_bypass (fun _ => false) "default" c4MsgEx c4StEx (Or.inl (by decide))

/-- Batch-id telemetry recorded by `onFlush` on the prepared context
(`MessageSids`, `MessageSidFirst`, `MessageSidLast`). -/
structure Team9BatchIds where
  sids : List String
  first : String
  last : String
  deriving DecidableEq, Repr

/-- The pure merging core of `onFlush` (monitor/message-handler.ts): a
single-entry batch dispatches its message unchanged; a multi-entry batch
dispatches the last message with the non-empty contents joined by newlines,
and records the non-empty message ids (list, first, last) when any exist;
an empty batch dispatches nothing.  JS `ids[0]` / `ids.at(-1)` under the
non-emptiness guard are modelled with `headD` / `getLastD`. -/
def onFlushMerge (entries : List Team9IncomingMessage) :
    Option (Team9IncomingMessage × Option Team9BatchIds) :=
  match entries.getLast? with
  | none => none
  | some lastMsg =>
    let synthetic :=
      if entries.length = 1 then lastMsg
      else
        { lastMsg with
          content := String.intercalate "\n"
            ((entries.map (·.content)).filter fun s => s != "") }
    let ids := (entries.map (·.messageId)).filter fun s => s != ""
    let batchIds :=
      if 1 < entries.length then
        if 0 < ids.length then some ⟨ids, ids.headD "", ids.getLastD ""⟩ else none
      else none
    some (synthetic, batchIds)

theorem shouldDebounce_content_ne_empty {hasCmd : String → Bool}
    {m : Team9IncomingMessage} (h : shouldDebounce hasCmd m = true) :
    m.content ≠ "" := by
  intro hc
  have h0 : stripHtml "" = "" := by decide
  have h1 : jsTrim "" = "" := by decide
  by_cases ha : (m.attachments.getD []).length > 0 <;>
    simp [shouldDebounce, ha, hc, h0, h1] at h

/-- C5: a flushed batch of debounced messages with non-empty ids merges, in
arrival order, to the last message carrying the newline-joined contents,
with the ordered id list and its first and last elements recorded; a
single-entry batch dispatches that message unchanged with no batch ids. -/
theorem c5_merge (hasCmd : String → Bool) (entries : List Team9IncomingMessage)
    (hne : entries ≠ [])
    (hdeb : ∀ e ∈ entries, shouldDebounce hasCmd e = true)
    (hid : ∀ e ∈ entries, e.messageId ≠ "") :
    (∀ e, entries = [e] → onFlushMerge entries = some (e, none)) ∧
    (1 < entries.length →
      onFlushMerge entries = some
        ({ entries.getLastD default with
            content := String.intercalate "\n" (entries.map (·.content)) },
          some ⟨entries.map (·.messageId),
            (entries.map (·.messageId)).headD "",
            (entries.map (·.messageId)).getLastD ""⟩)) := by
  constructor
  · intro e he
    subst he
    simp [onFlushMerge]
  · intro hlen
    have hfc : ((entries.map (·.content)).filter fun s => s != "") =
        entries.map (·.content) := by
      rw [List.filter_eq_self]
      intro s hs
      obtain ⟨e, he, rfl⟩ := List.mem_map.mp hs
      simpa using shouldDebounce_content_ne_empty (hdeb e he)
    have hfi : ((entries.map (·.messageId)).filter fun s => s != "") =
        entries.map (·.messageId) := by
      rw [List.filter_eq_self]
      intro s hs
      obtain ⟨e, he, rfl⟩ := List.mem_map.mp hs
      simpa using hid e he
    obtain ⟨lastMsg, hlast⟩ :=
      Option.isSome_iff_exists.mp (List.getLast?_isSome.mpr hne)
    have hlen1 : entries.length ≠ 1 := by omega
    have hidlen : 0 < (entries.map (·.messageId)).length := by
      simpa using List.length_pos.mpr hne
    have hgd : entries.getLastD default = lastMsg := by
      rw [List.getLastD_eq_getLast?, hlast, Option.getD_some]
    simp only [onFlushMerge, hlast, hfc, hfi, if_neg hlen1, if_pos hlen, if_pos hidlen, hgd]

/-- The two-message "hello" / "world" batch of end-to-end scenario A. -/
def c5EntriesEx : List Team9IncomingMessage :=
  [{ messageId := "m1", channelId := "c1", senderId := "u1", content := "hello" },
   { messageId := "m2", channelId := "c1", senderId := "u1", content := "world" }]

/-- C5 witness: the merge theorem applied to the "hello" then "world"
batch — one synthetic message "hello\nworld" with the 2-element id list. -/
theorem c5_merge_witness :
    onFlushMerge c5EntriesEx = some
      ({ c5EntriesEx.getLastD default with content := "hello\nworld" },
        some ⟨["m1", "m2"], "m1", "m2"⟩) := by
  have h := (c5_merge (fun _ => false) c5EntriesEx (by decide)
    (by intro e he; fin_cases he <;> decide)
    (by intro e he; fin_cases he <;> decide)).2 (by decide)
  simpa [c5EntriesEx] using h

/-- JS truthiness of a `string | null | undefined` value. -/
def optStrTruthy : Option String → Bool
  | none => false
  | some s => s != ""

/-! Watchdog tick, from the loop body of `startWatchdog` in channel.ts. -/

/-- One watchdog tick for one tracked account (the loop body of
`startWatchdog`): `prev` is the account's entry in the `watchdogFailures`
map (`none` = absent, i.e. zero).  Returns the new map entry and how many
rebuilds were triggered. -/
def watchdogTickAccount (prev : Option Nat) (active healthy : Bool) : Option Nat × Nat :=
  if active && healthy then (none, 0)
  else
    let failures := prev.getD 0 + 1
    if failures ≥ 3 then (none, 1) else (some failures, 0)

/-- A sequence of watchdog ticks for one account, accumulating the total
number of rebuilds triggered. -/
def watchdogTickSeq (prev : Option Nat) : List (Bool × Bool) → Option Nat × Nat
  | [] => (prev, 0)
  | (active, healthy) :: rest =>
    let step := watchdogTickAccount prev active healthy
    let tail := watchdogTickSeq step.1 rest
    (tail.1, step.2 + tail.2)

/-- C3: per tracked account, a healthy tick removes the failure-map entry
and triggers no rebuild; an unhealthy tick increments the counter (stored
while below three); on the third consecutive failure exactly one rebuild is
triggered and the counter entry is removed; and three consecutive
unhealthy ticks from a clean state trigger exactly one rebuild in total. -/
theorem c3_watchdog_counter (prev : Option Nat) (active healthy : Bool)
    (a1 h1 a2 h2 a3 h3 : Bool)
    (hu1 : (a1 && h1) = false) (hu2 : (a2 && h2) = false) (hu3 : (a3 && h3) = false) :
    ((active && healthy) = true → watchdogTickAccount prev active healthy = (none, 0)) ∧
    ((active && healthy) = false → prev.getD 0 + 1 < 3 →
      watchdogTickAccount prev active healthy = (some (prev.getD 0 + 1), 0)) ∧
    ((active && healthy) = false → prev.getD 0 + 1 ≥ 3 →
      watchdogTickAccount prev active healthy = (none, 1)) ∧
    watchdogTickSeq none [(a1, h1), (a2, h2), (a3, h3)] = (none, 1) := by
  refine ⟨?_, ?_, ?_, ?_⟩
  · intro h
    simp [watchdogTickAccount, h]
  · intro h hlt
    simp [watchdogTickAccount, h, Nat.not_le.mpr hlt]
  · intro h hge
    simp [watchdogTickAccount, h, hge]
  · simp [watchdogTickSeq, watchdogTickAccount, hu1, hu2, hu3]

/-- C3 witness: the tick theorem applied at a healthy tick on counter 1, an
unhealthy tick on an absent counter, the third unhealthy tick on counter 2,
and a three-tick unhealthy run. -/
theorem c3_watchdog_counter_witness :
    watchdogTickAccount (some 1) true true = (none, 0) ∧
    watchdogTickAccount none false true = (some 1, 0) ∧
    watchdogTickAccount (some 2) false false = (none, 1) ∧
    watchdogTickSeq none [(false, false), (false, true), (true, false)] = (none, 1) :=
  ⟨(c3_watchdog_counter (some 1) true true false false false false false false
      rfl rfl rfl).1 rfl,
    (c3_watchdog_counter none false true false false false false false false
      rfl rfl rfl).2.1 rfl (by decide),
    (c3_watchdog_counter (some 2) false false false false false false false false
      rfl rfl rfl).2.2.1 rfl (by decide),
    (c3_watchdog_counter none false false false false false true true false
      rfl rfl rfl).2.2.2⟩

/-! Connection supervisor (channel.ts): the `activeConnections` registry,
`getConnection`, and the watchdog lifecycle. -/

/-- A live connection (TransportClient + RestClient pair).  Only what the
claims observe is modelled: a client identity distinguishing constructed
client instances, and the websocket's two health signals (`isActive`,
`isHealthy`). -/
structure Conn where
  clientId : Nat
  active : Bool
  healthy : Bool
  deriving DecidableEq, Repr

/-- JS `Map.set`: replace the entry under the key, else append. -/
def setEntry {α : Type} (k : String) (v : α) :
    List (String × α) → List (String × α)
  | [] => [(k, v)]
  | (k', v') :: rest =>
    if k' = k then (k, v) :: rest else (k', v') :: setEntry k v rest

/-- JS `Map.delete`. -/
def removeEntry {α : Type} (k : String) (l : List (String × α)) : List (String × α) :=
  l.filter fun kv => kv.1 != k

/-- The module-level mutable state of channel.ts: the `activeConnections`
registry, the `watchdogInterval` timer (modelled as a running flag) and the
`watchdogFailures` counters. -/
structure GatewayState where
  activeConnections : List (String × Conn) := []
  watchdogOn : Bool := false
  watchdogFailures : List (String × Nat) := []
  deriving DecidableEq, Repr

/-- Failure modes of `getConnection`: the missing-token configuration error
(thrown before any client is constructed) and a failed `ws.connect()`
(transport or auth failure; auth errors are logged and rethrown). -/
inductive Team9ConnError where
  | noToken
  | connectFailed
  deriving DecidableEq, Repr

/-- The (re)build path of `getConnection` (channel.ts): token presence
check, client construction, `ws.connect()` (outcome `connectOk`; the
network is external to the model), then registration under the accountId
and `startWatchdog()`.  The returned Bool records whether a new client pair
was constructed. -/
def getConnectionBuild (st : GatewayState) (accountId : String)
    (token : Option String) (newConn : Conn) (connectOk : Bool) :
    Except Team9ConnError Conn × GatewayState × Bool :=
  if optStrTruthy token = false then (.error .noToken, st, false)
  else if connectOk = false then (.error .connectFailed, st, true)
  else
    (.ok newConn,
      { st with
          activeConnections := setEntry accountId newConn st.activeConnections
          watchdogOn := true },
      true)

/-- `getConnection` (channel.ts): return the registered connection when its
websocket reports itself active, otherwise run the full (re)build path. -/
def getConnection (st : GatewayState) (accountId : String) (token : Option String)
    (newConn : Conn) (connectOk : Bool) :
    Except Team9ConnError Conn × GatewayState × Bool :=
  match lookupKey st.activeConnections accountId with
  | some existing =>
    if existing.active then (.ok existing, st, false)
    else getConnectionBuild st accountId token newConn connectOk
  | none => getConnectionBuild st accountId token newConn connectOk

theorem lookupKey_setEntry_self {α : Type} (k : String) (v : α)
    (l : List (String × α)) : lookupKey (setEntry k v l) k = some v := by
  induction l with
  | nil => simp [setEntry, lookupKey]
  | cons hd tl ih =>
    cases hd with
    | mk k' v' =>
      by_cases hk : k' = k
      · simp [setEntry, hk, lookupKey]
      · have hb : (k' == k) = false := by simpa using hk
        simp only [setEntry, if_neg hk, lookupKey, List.find?, hb]
        simpa [lookupKey] using ih

theorem filterKey_eq_nil_of_not_mem {α : Type} {k : String}
    {l : List (String × α)} (h : k ∉ l.map Prod.fst) :
    l.filter (fun kv => kv.1 == k) = [] := by
  induction l with
  | nil => simp
  | cons hd tl ih =>
    simp only [List.map_cons, List.mem_cons, not_or] at h
    have h1 : (hd.1 == k) = false := by
      simp [BEq.beq]
      exact fun hc => h.1 hc.symm
    simp only [List.filter_cons, h1, Bool.false_eq_true, if_false]
    exact ih h.2

theorem countKey_setEntry_eq_one {α : Type} (k : String) (v : α)
    (l : List (String × α)) (hnd : (l.map Prod.fst).Nodup) :
    ((setEntry k v l).filter (fun kv => kv.1 == k)).length = 1 := by
  induction l with
  | nil => simp [setEntry]
  | cons hd tl ih =>
    simp only [List.map_cons, List.nodup_cons] at hnd
    by_cases hk : hd.1 = k
    · have : tl.filter (fun kv => kv.1 == k) = [] :=
        filterKey_eq_nil_of_not_mem (hk ▸ hnd.1)
      simp [setEntry, hk, List.filter_cons, this]
    · have h1 : (hd.1 == k) = false := by
        simp [BEq.beq]; exact hk
      cases hd with
      | mk k' v' =>
        simp only at hk h1
        simp only [setEntry, if_neg hk, List.filter_cons, h1, Bool.false_eq_true, if_false]
        exact ih hnd.2

/-- C7: `getConnection` is idempotent on an active registered connection
(returned unchanged, no construction, registry untouched); with no active
entry and a missing token it fails with the configuration error leaving the
state unchanged; and a successful (re)build registers the new connection as
the single connection for that accountId and starts the watchdog. -/
theorem c7_get_connection (st : GatewayState) (accountId : String)
    (token : Option String) (newConn : Conn) (connectOk : Bool) :
    (∀ c, lookupKey st.activeConnections accountId = some c → c.active = true →
      getConnection st accountId token newConn connectOk = (.ok c, st, false)) ∧
    ((∀ c, lookupKey st.activeConnections accountId = some c → c.active = false) →
      optStrTruthy token = false →
      getConnection st accountId token newConn connectOk =
        (.error .noToken, st, false)) ∧
    ((∀ c, lookupKey st.activeConnections accountId = some c → c.active = false) →
      optStrTruthy token = true → connectOk = true →
      getConnection st accountId token newConn connectOk =
        (.ok newConn,
          { st with
              activeConnections := setEntry accountId newConn st.activeConnections
              watchdogOn := true },
          true) ∧
      lookupKey (setEntry accountId newConn st.activeConnections) accountId =
        some newConn ∧
      ((st.activeConnections.map Prod.fst).Nodup →
        ((setEntry accountId newConn st.activeConnections).filter
          (fun kv => kv.1 == accountId)).length = 1)) := by
  refine ⟨?_, ?_, ?_⟩
  · intro c hc hact
    simp [getConnection, hc, hact]
  · intro hinact htok
    cases hc : lookupKey st.activeConnections accountId with
    | none => simp [getConnection, hc, getConnectionBuild, htok]
    | some c =>
      have := hinact c hc
      simp [getConnection, hc, this, getConnectionBuild, htok]
  · intro hinact htok hok
    refine ⟨?_, lookupKey_setEntry_self _ _ _,
      countKey_setEntry_eq_one accountId newConn st.activeConnections⟩
    cases hc : lookupKey st.activeConnections accountId with
    | none => simp [getConnection, hc, getConnectionBuild, htok, hok]
    | some c =>
      have := hinact c hc
      simp [getConnection, hc, this, getConnectionBuild, htok, hok]

/-- C7 witness: `getConnection` applied on an empty registry with a token
and a successful connect — the built connection is registered exactly
once — and on a tokenless account — the configuration error with the
registry unchanged. -/
theorem c7_get_connection_witness :
    getConnection {} "default" (some "t9bot_x") ⟨1, true, true⟩ true =
      (.ok ⟨1, true, true⟩,
        { activeConnections := [("default", ⟨1, true, true⟩)], watchdogOn := true },
        true) ∧
    getConnection {} "default" none ⟨1, true, true⟩ true =
      (.error .noToken, {}, false) :=
  ⟨((c7_get_connection {} "default" (some "t9bot_x") ⟨1, true, true⟩ true).2.2
      (by intro c hc; simp [lookupKey] at hc) rfl rfl).1,
    (c7_get_connection {} "default" none ⟨1, true, true⟩ true).2.1
      (by intro c hc; simp [lookupKey] at hc) rfl⟩

/-- One watchdog interval pass over the tracked accounts (the `for` loop of
`startWatchdog`): threads the failure map through `watchdogTickAccount` per
account and collects, in order, the accounts whose counter reached the
rebuild threshold. -/
def watchdogScan (failures : List (String × Nat)) :
    List (String × Conn) → List (String × Nat) × List String
  | [] => (failures, [])
  | (a, c) :: rest =>
    let step := watchdogTickAccount (lookupKey failures a) c.active c.healthy
    let failures' :=
      match step.1 with
      | none => removeEntry a failures
      | some n => setEntry a n failures
    let tail := watchdogScan failures' rest
    (tail.1, (if 0 < step.2 then [a] else []) ++ tail.2)

/-- The asynchronous rebuild blocks queued by one watchdog pass: per marked
account, disconnect and deregister the stale connection, then re-run
`getConnection` with the re-resolved account (token, fresh client, connect
outcome); a failed rebuild is only logged. -/
def watchdogRebuilds (token : String → Option String) (conn : String → Conn)
    (connectOk : String → Bool) : List String → GatewayState → GatewayState
  | [], st => st
  | a :: rest, st =>
    let st1 := { st with activeConnections := removeEntry a st.activeConnections }
    let st2 := (getConnection st1 a (token a) (conn a) (connectOk a)).2.1
    watchdogRebuilds token conn connectOk rest st2

/-- External events driving the supervisor state: a `getConnection` call
(from `startAccount` or an outbound action), a `stopAccount` call, and one
watchdog interval tick (with the re-resolution parameters any triggered
rebuilds would use). -/
inductive SupEvent where
  | connectEv (accountId : String) (token : Option String) (conn : Conn) (connectOk : Bool)
  | stopEv (accountId : String)
  | tickEv (token : String → Option String) (conn : String → Conn) (connectOk : String → Bool)

/-- The supervisor step function assembled from channel.ts:
`getConnection`, `gateway.stopAccount` (delete, then stop the watchdog when
no connections remain), and the watchdog interval body (which only runs
while the interval is set). -/
def supStep (st : GatewayState) : SupEvent → GatewayState
  | .connectEv a token conn ok => (getConnection st a token conn ok).2.1
  | .stopEv a =>
    let st1 :=
      match lookupKey st.activeConnections a with
      | some _ =>
        { st with
            activeConnections := removeEntry a st.activeConnections
            watchdogFailures := removeEntry a st.watchdogFailures }
      | none => st
    if st1.activeConnections.isEmpty then
      { st1 with watchdogOn := false, watchdogFailures := [] }
    else st1
  | .tickEv token conn ok =>
    if st.watchdogOn then
      let scan := watchdogScan st.watchdogFailures st.activeConnections
      watchdogRebuilds token conn ok scan.2 { st with watchdogFailures := scan.1 }
    else st

/-- Run the supervisor from the initial module state (empty registry, no
watchdog, no failure counters). -/
def supRun (events : List SupEvent) : GatewayState :=
  events.foldl supStep {}

theorem getConnection_watchdogOn_mono {st : GatewayState} {a : String}
    {token : Option String} {c : Conn} {ok : Bool}
    (h : st.watchdogOn = true) :
    ((getConnection st a token c ok).2.1).watchdogOn = true := by
  rw [getConnection]
  cases hlk : lookupKey st.activeConnections a with
  | none =>
    by_cases ht : optStrTruthy token = false
    · simp [getConnectionBuild, ht, h]
    · by_cases hk : ok = false
      · simp [getConnectionBuild, ht, hk, h]
      · simp [getConnectionBuild, ht, hk]
  | some existing =>
    by_cases hact : existing.active = true
    · simp [hact, h]
    · by_cases ht : optStrTruthy token = false
      · simp [hact, getConnectionBuild, ht, h]
      · by_cases hk : ok = false
        · simp [hact, getConnectionBuild, ht, hk, h]
        · simp [hact, getConnectionBuild, ht, hk]

theorem watchdogRebuilds_watchdogOn_mono (token : String → Option String)
    (conn : String → Conn) (ok : String → Bool) (l : List String)
    {st : GatewayState} (h : st.watchdogOn = true) :
    (watchdogRebuilds token conn ok l st).watchdogOn = true := by
  induction l generalizing st with
  | nil => exact h
  | cons a rest ih =>
    rw [watchdogRebuilds]
    exact ih (getConnection_watchdogOn_mono h)

theorem getConnection_state_cases (st : GatewayState) (a : String)
    (token : Option String) (c : Conn) (ok : Bool) :
    (getConnection st a token c ok).2.1 = st ∨
    ((getConnection st a token c ok).2.1).watchdogOn = true := by
  rw [getConnection]
  cases hlk : lookupKey st.activeConnections a with
  | none =>
    by_cases ht : optStrTruthy token = false
    · simp [getConnectionBuild, ht]
    · by_cases hk : ok = false
      · simp [getConnectionBuild, ht, hk]
      · simp [getConnectionBuild, ht, hk]
  | some existing =>
    by_cases hact : existing.active = true
    · simp [hact]
    · by_cases ht : optStrTruthy token = false
      · simp [hact, getConnectionBuild, ht]
      · by_cases hk : ok = false
        · simp [hact, getConnectionBuild, ht, hk]
        · simp [hact, getConnectionBuild, ht, hk]

theorem supStep_preserves_inv {st : GatewayState}
    (hinv : st.activeConnections ≠ [] → st.watchdogOn = true) (e : SupEvent) :
    (supStep st e).activeConnections ≠ [] → (supStep st e).watchdogOn = true := by
  intro hne
  cases e with
  | connectEv a token conn ok =>
    rcases getConnection_state_cases st a token conn ok with hcase | hcase
    · rw [supStep] at hne ⊢
      rw [hcase] at hne ⊢
      exact hinv hne
    · rw [supStep]
      exact hcase
  | stopEv a =>
    rw [supStep] at hne ⊢
    cases hlk : lookupKey st.activeConnections a with
    | none =>
      simp only [hlk] at hne ⊢
      by_cases he : st.activeConnections.isEmpty = true
      · rw [if_pos he] at hne
        exact absurd (List.isEmpty_iff.mp he) hne
      · rw [if_neg he] at hne ⊢
        exact hinv hne
    | some c =>
      simp only [hlk] at hne ⊢
      by_cases he : (removeEntry a st.activeConnections).isEmpty = true
      · rw [if_pos he] at hne
        exact absurd (List.isEmpty_iff.mp he) hne
      · rw [if_neg he] at hne ⊢
        apply hinv
        intro hnil
        exact he (by simp [removeEntry, hnil])
  | tickEv token conn ok =>
    rw [supStep] at hne ⊢
    by_cases hon : st.watchdogOn = true
    · rw [if_pos hon] at hne ⊢
      exact watchdogRebuilds_watchdogOn_mono _ _ _ _ hon
    · rw [if_neg hon] at hne ⊢
      exact hinv hne

/-- Event list of the C8 counterexample: one account connects (its
connection stays active but unhealthy), then three watchdog ticks elapse;
the third triggers the rebuild, whose re-resolved account has no token, so
the reconnect fails and the registry is left empty. -/
def c8EventsEx : List SupEvent :=
  [.connectEv "a" (some "t9bot_x") ⟨1, true, false⟩ true,
   .tickEv (fun _ => none) (fun _ => ⟨2, true, true⟩) (fun _ => false),
   .tickEv (fun _ => none) (fun _ => ⟨2, true, true⟩) (fun _ => false),
   .tickEv (fun _ => none) (fun _ => ⟨2, true, true⟩) (fun _ => false)]

/-- C8 counterexample: after a watchdog-triggered rebuild whose reconnect
fails, the registry is empty while the watchdog interval is still running —
the watchdog does run with zero accounts in this reachable state. -/
theorem c8_counterexample :
    (supRun c8EventsEx).activeConnections = [] ∧
    (supRun c8EventsEx).watchdogOn = true := by
  constructor
  · rfl
  · rfl

/-- C8 (amended): the watchdog is started lazily by the first successful
`getConnection` and, in every state reachable from startup, a non-empty
connection registry implies the watchdog interval is running; `stopAccount`
stops the watchdog whenever it leaves the registry empty; however, after a
watchdog-triggered rebuild whose reconnect fails, the watchdog can keep
running with an empty registry (see the counterexample). -/
theorem c8_watchdog_lifecycle (events : List SupEvent) (st : GatewayState) (a : String)
    (hne : (supRun events).activeConnections ≠ [])
    (hstop : (supStep st (.stopEv a)).activeConnections = []) :
    (supRun events).watchdogOn = true ∧
    (supStep st (.stopEv a)).watchdogOn = false := by
  constructor
  · have hrun : ∀ evs : List SupEvent,
        (supRun evs).activeConnections ≠ [] → (supRun evs).watchdogOn = true := by
      intro evs
      rw [supRun]
      induction evs using List.reverseRecOn with
      | nil => intro h; simp at h
      | append_singleton rest e ih =>
        rw [List.foldl_append, List.foldl_cons, List.foldl_nil]
        exact supStep_preserves_inv ih e
    exact hrun events hne
  · rw [supStep] at hstop ⊢
    cases hlk : lookupKey st.activeConnections a with
    | none =>
      simp only [hlk] at hstop ⊢
      by_cases he : st.activeConnections.isEmpty = true
      · rw [if_pos he]
      · rw [if_neg he] at hstop ⊢
        exact absurd (List.isEmpty_iff.mpr hstop) he
    | some c =>
      simp only [hlk] at hstop ⊢
      by_cases he : (removeEntry a st.activeConnections).isEmpty = true
      · rw [if_pos he]
      · rw [if_neg he] at hstop ⊢
        exact absurd (List.isEmpty_iff.mpr hstop) he

/-- C8 witness: the lifecycle theorem applied after one successful connect
(registry non-empty, watchdog running) and at a stop of the last account
(registry emptied, watchdog stopped). -/
theorem c8_watchdog_lifecycle_witness :
    (supRun [.connectEv "a" (some "t9bot_x") ⟨1, true, true⟩ true]).watchdogOn = true ∧
    (supStep { activeConnections := [("a", ⟨1, true, true⟩)], watchdogOn := true }
      (.stopEv "a")).watchdogOn = false :=
  c8_watchdog_lifecycle [.connectEv "a" (some "t9bot_x") ⟨1, true, true⟩ true]
    { activeConnections := [("a", ⟨1, true, true⟩)], watchdogOn := true } "a"
    (by decide) (by decide)

/-! Websocket inbound message construction (websocket-client.ts). -/

/-- Chat kind of a channel as cached in `channelTypes`
("direct" / "public" / "private"). -/
inductive Team9ChannelType where
  | direct
  | pub
  | priv
  deriving DecidableEq, Repr

/-- A raw `new_message` transport payload (the fields the construction
reads; `sender` collapsed to the display name already chosen). -/
structure Team9Message where
  id : String
  channelId : String
  senderId : String
  senderName : Option String := none
  content : String
  parentId : Option String := none
  attachments : Option (List String) := none
  deriving DecidableEq, Repr

/-- `Team9WebSocketClient.setChannelType`: cache a channel's chat kind. -/
def setChannelType (channelTypes : List (String × Team9ChannelType))
    (channelId : String) (ty : Team9ChannelType) :
    List (String × Team9ChannelType) :=
  setEntry channelId ty channelTypes

/-- `Team9WebSocketClient.handleIncomingMessage`: build the incoming
message, with `isGroup := this.channelTypes.get(message.channelId) !==
"direct"`. -/
def wsHandleIncomingMessage (channelTypes : List (String × Team9ChannelType))
    (m : Team9Message) : Team9IncomingMessage :=
  { messageId := m.id
    channelId := m.channelId
    senderId := m.senderId
    senderName := m.senderName
    content := m.content
    parentId := m.parentId
    attachments := m.attachments
    isGroup := lookupKey channelTypes m.channelId != some .direct }

/-- C9: the constructed incoming message has isGroup = false exactly when
the channel-type cache maps its channelId to "direct"; in particular a
channel with no cache entry is treated as a group, and caching a type via
setChannelType makes it the looked-up type. -/
theorem c9_is_group_from_cache (channelTypes : List (String × Team9ChannelType))
    (m : Team9Message) (ty : Team9ChannelType) :
    ((wsHandleIncomingMessage channelTypes m).isGroup = false ↔
      lookupKey channelTypes m.channelId = some .direct) ∧
    (lookupKey channelTypes m.channelId = none →
      (wsHandleIncomingMessage channelTypes m).isGroup = true) ∧
    lookupKey (setChannelType channelTypes m.channelId ty) m.channelId = some ty := by
  refine ⟨?_, ?_, lookupKey_setEntry_self _ _ _⟩
  · simp [wsHandleIncomingMessage]
  · intro h
    simp [wsHandleIncomingMessage, h]

/-- C9 witness: the cache theorem applied to a message in a channel with no
cache entry — it is treated as a group message. -/
theorem c9_is_group_from_cache_witness :
    (wsHandleIncomingMessage []
      { id := "m1", channelId := "c1", senderId := "u1", content := "hi" }).isGroup =
      true :=
  (c9_is_group_from_cache []
    { id := "m1", channelId := "c1", senderId := "u1", content := "hi" }
    .direct).2.1 rfl

/-! Self-message filtering in the monitor message handler
(monitor/message-handler.ts, monitor/context.ts). -/

/-- The enqueue decision of the handler returned by
`createTeam9MessageHandler`: drop the message (`none`) when the context's
cached botUserId is truthy and equals the senderId, otherwise hand it to
the debouncer (`some`).  `botUserId` starts as null in
`createTeam9MonitorContext` and is set on authentication. -/
def team9MessageHandlerStep (botUserId : Option String)
    (m : Team9IncomingMessage) : Option Team9IncomingMessage :=
  if optStrTruthy botUserId && (m.senderId == botUserId.getD "") then none
  else some m

/-- C10 counterexample: the filter guard tests JS truthiness, not
non-nullness — with the cached botUserId set to the empty string (non-null)
and a message whose senderId equals it, the message is still enqueued. -/
theorem c10_counterexample :
    (some "" : Option String) ≠ none ∧
    ({ messageId := "m1", channelId := "c1", senderId := "",
        content := "x" } : Team9IncomingMessage).senderId = "" ∧
    team9MessageHandlerStep (some "")
      { messageId := "m1", channelId := "c1", senderId := "", content := "x" } =
      some { messageId := "m1", channelId := "c1", senderId := "", content := "x" } := by
  refine ⟨by decide, rfl, by decide⟩

/-- C10 (amended): when the cached botUserId is non-null and non-empty,
every message whose senderId equals it is dropped before the debouncer;
while the bot identity is unknown (botUserId null) no filtering occurs; and
messages from other senders always pass through. -/
theorem c10_self_message_filter (b : String) (m m' : Team9IncomingMessage)
    (hb : b ≠ "") (hm : m.senderId = b) (hm' : m'.senderId ≠ b) :
    team9MessageHandlerStep (some b) m = none ∧
    (∀ x : Team9IncomingMessage, team9MessageHandlerStep none x = some x) ∧
    team9MessageHandlerStep (some b) m' = some m' := by
  refine ⟨?_, fun x => rfl, ?_⟩
  · simp [team9MessageHandlerStep, optStrTruthy, hb, hm]
  · simp [team9MessageHandlerStep, optStrTruthy, hm']

/-- C10 witness: the filter theorem applied with botUserId "bot-1", a
self-message and a message from "user-2". -/
theorem c10_self_message_filter_witness :
    team9MessageHandlerStep (some "bot-1")
      { messageId := "m1", channelId := "c1", senderId := "bot-1", content := "x" } =
      none ∧
    team9MessageHandlerStep none
      { messageId := "m1", channelId := "c1", senderId := "bot-1", content := "x" } =
      some { messageId := "m1", channelId := "c1", senderId := "bot-1", content := "x" } ∧
    team9MessageHandlerStep (some "bot-1")
      { messageId := "m2", channelId := "c1", senderId := "user-2", content := "y" } =
      some { messageId := "m2", channelId := "c1", senderId := "user-2", content := "y" } :=
  ⟨(c10_self_message_filter "bot-1"
      { messageId := "m1", channelId := "c1", senderId := "bot-1", content := "x" }
      { messageId := "m2", channelId := "c1", senderId := "user-2", content := "y" }
      (by decide) rfl (by decide)).1,
    (c10_self_message_filter "bot-1"
      { messageId := "m1", channelId := "c1", senderId := "bot-1", content := "x" }
      { messageId := "m2", channelId := "c1", senderId := "user-2", content := "y" }
      (by decide) rfl (by decide)).2.1 _,
    (c10_self_message_filter "bot-1"
      { messageId := "m1", channelId := "c1", senderId := "bot-1", content := "x" }
      { messageId := "m2", channelId := "c1", senderId := "user-2", content := "y" }
      (by decide) rfl (by decide)).2.2⟩

end Team9
